import Mathlib

/-
Verification development for the `ipython-thapl` repository
(src/thaplmagic.py).  The file shallowly embeds the `thapl` cell magic
and its helper functions as pure Lean functions over an explicit `World`
of external effects (subprocess exit codes, file contents, environment
variables), together with an effect `Trace` recording the observable
side effects of a run (directories created and removed, files written
and read, subprocesses launched, payloads published, messages printed).

Python-level failures (AttributeError, ValueError, TypeError, IOError,
KeyError) are represented by the `PyErr` type; a value escaping as
`Outcome.err = some e` models an exception propagating out of the
embedded code region.
-/

/-- Python exception values that the embedded code can raise.
`argumentError` stands for the argparse `UsageError` that
`parse_argstring` itself may raise for malformed flags; the embedded
code never produces it, it exists so claims about it are statable. -/
inductive PyErr where
  | attributeError (name : String)
  | valueError (msg : String)
  | typeError (msg : String)
  | keyError (key : String)
  | ioError (msg : String)
  | expatError
  | argumentError (msg : String)
deriving DecidableEq, Repr

/-- The root `<svg>` element of a parsed SVG document, reduced to its
attribute list - the only part `_fix_gnuplot_svg_size` touches. -/
structure SvgElem where
  attrs : List (String × String)
deriving DecidableEq, Repr

/-- Value of the first attribute named `k`, if any. -/
def attrLookup : List (String × String) → String → Option String
  | [], _ => none
  | p :: ps, k => if p.1 = k then some p.2 else attrLookup ps k

/-- Is an attribute named `k` present? -/
def attrHas : List (String × String) → String → Bool
  | [], _ => false
  | p :: ps, k => p.1 == k || attrHas ps k

/-- Replace the value of every attribute named `k` (attribute names are
unique in an XML element). -/
def attrReplace : List (String × String) → String → String → List (String × String)
  | [], _, _ => []
  | p :: ps, k, v => (if p.1 = k then (k, v) else p) :: attrReplace ps k v

/-- `minidom` `getAttribute`: value of the attribute, or the empty
string when it is absent. -/
def SvgElem.getAttr (e : SvgElem) (k : String) : String :=
  match attrLookup e.attrs k with
  | some v => v
  | none => ""

/-- `minidom` `setAttribute`: replace the attribute's value when
present, append it otherwise. -/
def SvgElem.setAttr (e : SvgElem) (k v : String) : SvgElem :=
  if attrHas e.attrs k then ⟨attrReplace e.attrs k v⟩
  else ⟨e.attrs ++ [(k, v)]⟩

/-- Image payloads flowing through the pipeline: raw bytes (opaque, kept
as a string) or an already-parsed SVG document, standing for the result
of `minidom.parseString`. -/
inductive FileData where
  | bytes (s : String)
  | svgDoc (e : SvgElem)
deriving DecidableEq, Repr

/-- One `publish_display_data` call: source tag, MIME type, payload,
optional metadata map. -/
structure Pub where
  src : String
  mime : String
  data : FileData
  metadata : Option (List (String × String))
deriving DecidableEq, Repr

/-- Observable side effects of (a region of) one invocation. -/
structure Trace where
  workspaceCreated : List String := []
  filesWritten : List (String × String) := []
  subprocessCalls : List String := []
  fileReads : List String := []
  stderrLines : List String := []
  stdoutLines : List String := []
  published : List Pub := []
  savedCopies : List (String × FileData) := []
  rmtreeCalls : List String := []
deriving DecidableEq, Repr

def Trace.empty : Trace := {}

/-- Sequential composition of effect traces (fieldwise append). -/
def Trace.seq (a b : Trace) : Trace where
  workspaceCreated := a.workspaceCreated ++ b.workspaceCreated
  filesWritten := a.filesWritten ++ b.filesWritten
  subprocessCalls := a.subprocessCalls ++ b.subprocessCalls
  fileReads := a.fileReads ++ b.fileReads
  stderrLines := a.stderrLines ++ b.stderrLines
  stdoutLines := a.stdoutLines ++ b.stdoutLines
  published := a.published ++ b.published
  savedCopies := a.savedCopies ++ b.savedCopies
  rmtreeCalls := a.rmtreeCalls ++ b.rmtreeCalls

/-- Result of running an embedded code region: its effect trace plus an
optionally escaping Python exception. -/
structure Outcome where
  trace : Trace
  err : Option PyErr
deriving DecidableEq, Repr

/-- The external world one invocation runs against: caller's working
directory, process environment, the path `tempfile.mkdtemp()` returns,
subprocess exit codes (`none` = the launch itself raised `OSError`),
the contents of `thapl.log` (`none` = unreadable/absent), and a readable
filesystem (`none` = open fails with `IOError`). -/
structure World where
  cwd : String
  environ : String → Option String
  mkdtempPath : String
  latexRetcode : Option Int
  thaplLogContents : Option String
  pdf2svgRet : Option Int
  convertRet : Option Int
  files : String → Option FileData

/-- POSIX `os.pathsep`. -/
def pathSep : String := ":"

/-- Python truthiness of an `Optional[str]`: `None` and `""` are falsy. -/
def pyTruthyOptStr : Option String → Bool
  | none => false
  | some s => s != ""

/-- Python tuple unpacking `a, b = xs`: `ValueError` unless exactly two
elements. -/
def pyUnpack2 {α : Type} : List α → Except PyErr (α × α)
  | [a, b] => .ok (a, b)
  | l => .error (.valueError ("cannot unpack list of length " ++ toString l.length))


/-- Split a character list at every occurrence of `sep`, keeping empty
segments - the semantics of Python `str.split(sep)` for a one-character
separator (`"".split(sep)` is `[""]`). -/
def splitOnChar (sep : Char) : List Char → List (List Char)
  | [] => [[]]
  | c :: cs =>
    let r := splitOnChar sep cs
    if c = sep then [] :: r
    else
      match r with
      | h :: t => (c :: h) :: t
      | [] => [[c]]

/-- Python `s.split(sep)` for a one-character separator. -/
def pySplit (s : String) (sep : Char) : List String :=
  (splitOnChar sep s.data).map String.mk

/-- Value of a decimal digit character. -/
def digitVal (c : Char) : Option Nat :=
  if c.isDigit then some (c.toNat - 48) else none

/-- Parse a nonempty all-digit character list as a natural number. -/
def pyDigits (cs : List Char) : Option Nat :=
  match cs with
  | [] => none
  | _ => cs.foldlM (fun acc c => (digitVal c).map (fun d => acc * 10 + d)) 0

/-- Strip leading and trailing whitespace (what `int()` tolerates). -/
def pyStrip (s : String) : List Char :=
  ((s.data.dropWhile Char.isWhitespace).reverse.dropWhile Char.isWhitespace).reverse

/-- Python `int(s)` for the plain decimal strings the pipeline meets:
optional surrounding whitespace, optional sign, decimal digits.
(`none` models the `ValueError` Python raises otherwise.) -/
def pyInt (s : String) : Option Int :=
  match pyStrip s with
  | '+' :: cs => (pyDigits cs).map Int.ofNat
  | '-' :: cs => (pyDigits cs).map (fun n => -(Int.ofNat n))
  | cs => (pyDigits cs).map Int.ofNat

/- ----------------------------------------------------------------
Python `%`-formatting, as used by `thapl`'s document assembly
(src/thaplmagic.py lines 339-378).  A format template is lexed into
literal characters and directives; `%(key)s` directives are rendered
from a mapping (`'...' % locals()`), a positional `%s` from a single
argument (`'...' % pkg`).  A directive whose conversion character is
not a recognised conversion raises `ValueError` - this is what happens
on the source's `PYTHONPATH="%(python_path) python3 ...` template,
where the character after the mapping key and the space flag is `p`.
---------------------------------------------------------------- -/

/-- One lexed element of a `%`-format template. -/
inductive FmtItem where
  | lit (c : Char)
  | posS
  | mapS (key : String)
deriving DecidableEq, Repr

/-- Conversion flag characters of Python `%`-formatting. -/
def fmtFlags : List Char := ['#', '0', '-', ' ', '+']

/-- Valid conversion type characters of Python `%`-formatting. -/
def fmtConvChars : List Char :=
  ['d', 'i', 'o', 'u', 'x', 'X', 'e', 'E', 'f', 'F', 'g', 'G', 'c', 'r', 's', 'a']

/-- Skip the flags / width / precision / length-modifier part of a
conversion specifier. -/
def dropSpec (cs : List Char) : List Char :=
  let c1 := cs.dropWhile (fun c => fmtFlags.contains c)
  let c2 := c1.dropWhile Char.isDigit
  let c3 := match c2 with
            | '.' :: r => r.dropWhile Char.isDigit
            | _ => c2
  c3.dropWhile (fun c => c == 'h' || c == 'l' || c == 'L')

/-- Fuelled lexer for `%`-format templates (fuel is decremented once per
produced item, so `length + 1` fuel always suffices). -/
def lexFmtF : Nat → List Char → Except PyErr (List FmtItem)
  | 0, _ => .error (.valueError "format lexer out of fuel")
  | _ + 1, [] => .ok []
  | fuel + 1, '%' :: rest =>
    match rest with
    | [] => .error (.valueError "incomplete format")
    | '%' :: r => (lexFmtF fuel r).map (fun items => .lit '%' :: items)
    | '(' :: r =>
      let key := r.takeWhile (fun c => c != ')')
      match r.dropWhile (fun c => c != ')') with
      | ')' :: r2 =>
        match dropSpec r2 with
        | [] => .error (.valueError "incomplete format")
        | c :: r3 =>
          if c = 's' then
            (lexFmtF fuel r3).map (fun items => .mapS (String.mk key) :: items)
          else if fmtConvChars.contains c then
            .error (.typeError "conversion directive not modelled")
          else
            .error (.valueError ("unsupported format character " ++ String.mk [c]))
      | _ => .error (.valueError "incomplete format key")
    | _ =>
      match dropSpec rest with
      | [] => .error (.valueError "incomplete format")
      | c :: r3 =>
        if c = 's' then
          (lexFmtF fuel r3).map (fun items => .posS :: items)
        else if fmtConvChars.contains c then
          .error (.typeError "conversion directive not modelled")
        else
          .error (.valueError ("unsupported format character " ++ String.mk [c]))
  | fuel + 1, c :: rest => (lexFmtF fuel rest).map (fun items => .lit c :: items)

/-- Lex a `%`-format template. -/
def lexFmt (t : String) : Except PyErr (List FmtItem) :=
  lexFmtF (t.length + 1) t.data

/-- Render lexed items against a mapping argument (`'...' % locals()`).
A positional directive with a mapping argument does not occur in any of
the source's templates and is left unmodelled. -/
def renderMapF (m : String → Option String) : List FmtItem → Except PyErr (List Char)
  | [] => .ok []
  | .lit c :: rest => (renderMapF m rest).map (fun cs => c :: cs)
  | .mapS k :: rest =>
    match m k with
    | some v => (renderMapF m rest).map (fun cs => v.data ++ cs)
    | none => .error (.keyError k)
  | .posS :: _ => .error (.typeError "positional directive with mapping argument not modelled")

/-- Python `template % mapping`. -/
def pyFormatMap (t : String) (m : String → Option String) : Except PyErr String :=
  match lexFmt t with
  | .error e => .error e
  | .ok items => (renderMapF m items).map String.mk

/-- Render lexed items against one positional string argument
(`'...' % pkg`), tracking whether the argument has been consumed,
with Python's "not enough arguments" / "not all arguments converted"
errors. -/
def renderPos1F (arg : String) (consumed : Bool) : List FmtItem → Except PyErr (List Char × Bool)
  | [] => .ok ([], consumed)
  | .lit c :: rest => (renderPos1F arg consumed rest).map (fun p => (c :: p.1, p.2))
  | .posS :: rest =>
    if consumed then .error (.typeError "not enough arguments for format string")
    else (renderPos1F arg true rest).map (fun p => (arg.data ++ p.1, p.2))
  | .mapS _ :: _ => .error (.typeError "format requires a mapping")

/-- Python `template % arg` with a single (non-tuple, non-mapping)
string argument. -/
def pyFormat1 (t : String) (arg : String) : Except PyErr String :=
  match lexFmt t with
  | .error e => .error e
  | .ok items =>
    match renderPos1F arg false items with
    | .error e => .error e
    | .ok (cs, true) => .ok (String.mk cs)
    | .ok (_, false) => .error (.typeError "not all arguments converted during string formatting")

/- ----------------------------------------------------------------
`_fix_gnuplot_svg_size` (src/thaplmagic.py lines 77-101).
---------------------------------------------------------------- -/

/-- A Python value that may stand where `'%dpx' % x` is applied:
`width`/`height` are `int`s when an explicit size was supplied and the
`str` entries of `viewBox` otherwise. -/
inductive PyNum where
  | int (n : Int)
  | str (s : String)
deriving DecidableEq, Repr

/-- Python `'%dpx' % x`: renders an `int` in decimal with the `px`
suffix; a `str` argument raises `TypeError`. -/
def pyFormatDpx : PyNum → Except PyErr String
  | .int n => .ok (toString n ++ "px")
  | .str _ => .error (.typeError "%d format: a real number is required, not str")

/-- `_fix_gnuplot_svg_size(image, size)` (lines 91-101): read the root
element's `viewBox`, take the requested size when given and the third
and fourth `viewBox` entries otherwise, then set the `width` and
`height` attributes to the `%dpx`-rendering of the pair.  XML parsing
and serialisation are the identity on the modelled root element. -/
def fixGnuplotSvgSize (image : SvgElem) (size : Option (Int × Int)) : Except PyErr SvgElem :=
  let viewbox := pySplit (image.getAttr "viewBox") ' '
  let wh : Except PyErr (PyNum × PyNum) :=
    match size with
    | some (a, b) => .ok (.int a, .int b)
    | none =>
      match viewbox.drop 2 with
      | [a, b] => .ok (.str a, .str b)
      | l => .error (.valueError ("cannot unpack list of length " ++ toString l.length))
  match wh with
  | .error e => .error e
  | .ok (wv, hv) =>
    match pyFormatDpx wv with
    | .error e => .error e
    | .ok ws =>
      match pyFormatDpx hv with
      | .error e => .error e
      | .ok hs => .ok ((image.setAttr "width" ws).setAttr "height" hs)

/- ----------------------------------------------------------------
MIME-type table (src/thaplmagic.py lines 50-55) and the publication
lookup `_mimetypes.get(plot_format, 'image/%s' % plot_format)`
(lines 407-408).
---------------------------------------------------------------- -/

def mimetypesTable : List (String × String) :=
  [("png", "image/png"), ("svg", "image/svg+xml"),
   ("jpg", "image/jpeg"), ("jpeg", "image/jpeg")]

def mimeFor (fmt : String) : String :=
  match mimetypesTable.find? (fun p => p.1 == fmt) with
  | some p => p.2
  | none => "image/" ++ fmt

/- ----------------------------------------------------------------
`_run_latex` (src/thaplmagic.py lines 107-149) and the two conversion
helpers (lines 151-184).
---------------------------------------------------------------- -/

/-- The TEXINPUTS construction of `_run_latex` (lines 119-125): copy the
process environment; prepend the caller's working directory (and a path
separator) to an existing TEXINPUTS, otherwise install
`"." + pathsep + current_dir + pathsep * 2` (the doubled trailing
separator keeps the engine's standard search path reachable). -/
def mkLatexEnv (environ : String → Option String) (currentDir : String) :
    String → Option String :=
  fun k =>
    if k = "TEXINPUTS" then
      match environ "TEXINPUTS" with
      | some v => some (currentDir ++ pathSep ++ v)
      | none => some ("." ++ pathSep ++ currentDir ++ pathSep ++ pathSep)
    else environ k

/-- Did the `xelatex` call fail (non-zero exit code, or `OSError` on
launch)?  Source lines 127-136 set `ret_log` exactly in these cases. -/
def latexRetFail (w : World) : Bool :=
  match w.latexRetcode with
  | some n => n != 0
  | none => true

/-- Diagnostic lines the `xelatex` call itself prints (lines 130-136). -/
def latexCallStderr (w : World) : List String :=
  match w.latexRetcode with
  | some n =>
    if n = 0 then [] else ["LaTeX terminated with signal " ++ toString (-n)]
  | none => ["LaTeX execution failed"]

/-- The log returned by `_run_latex` (lines 138-145): only on failure is
`thapl.log` opened; if that open raises `IOError` the log stays `None`
(no empty string is substituted). -/
def latexLogResult (w : World) : Option String :=
  if latexRetFail w then w.thaplLogContents else none

/-- Effects of the `if ret_log:` block (lines 139-145): an attempted
read of `thapl.log`, plus a diagnostic when it is unreadable. -/
def latexLogTrace (w : World) : Trace :=
  if latexRetFail w then
    match w.thaplLogContents with
    | some _ => { Trace.empty with fileReads := ["thapl.log"] }
    | none => { Trace.empty with fileReads := ["thapl.log"],
                                 stderrLines := ["No log file generated."] }
  else Trace.empty

/-- Result of `_run_latex`: the log (or `None`), the environment handed
to the subprocess, and the effect trace.  The working-directory switch
around the call (lines 111-112, 147) is symmetric and not traced. -/
structure LatexRun where
  log : Option String
  latexEnv : String → Option String
  trace : Trace

/-- `_run_latex(code, encoding, dir)` (lines 107-149): write
`magic.tex`, invoke `xelatex --shell-escape magic.tex` with the
TEXINPUTS-extended copy of the environment, and on failure read back
`thapl.log`. -/
def runLatex (texCode _encoding dir : String) (w : World) : LatexRun where
  log := latexLogResult w
  latexEnv := mkLatexEnv w.environ w.cwd
  trace :=
    Trace.seq
      { Trace.empty with
          filesWritten := [(dir ++ "/magic.tex", texCode)],
          subprocessCalls := ["xelatex --shell-escape magic.tex"],
          stderrLines := latexCallStderr w }
      (latexLogTrace w)

/-- `_convert_pdf_to_svg` (lines 151-165): run `pdf2svg`, log a
diagnostic on failure, never raise. -/
def convertPdfToSvg (w : World) : Trace :=
  { Trace.empty with
      subprocessCalls := ["pdf2svg magic.pdf magic.svg"],
      stderrLines :=
        match w.pdf2svgRet with
        | some n => if n = 0 then [] else ["pdf2svg terminated with signal " ++ toString (-n)]
        | none => ["pdf2svg execution failed"] }

/-- `_convert_png_to_jpg` (lines 167-184): run the ImageMagick tool with
the fixed quality/background/flatten arguments, log a diagnostic on
failure, never raise. -/
def convertPngToJpg (imagemagickPath : String) (w : World) : Trace :=
  { Trace.empty with
      subprocessCalls :=
        [imagemagickPath ++ " magic.png -quality 100 -background white -flatten magic.jpg"],
      stderrLines :=
        match w.convertRet with
        | some n => if n = 0 then [] else ["convert terminated with signal " ++ toString (-n)]
        | none => ["convert execution failed"] }

/- ----------------------------------------------------------------
Argument schema and the argument-reading phase of `thapl`
(src/thaplmagic.py lines 186-305).
---------------------------------------------------------------- -/

/-- The namespace produced by `parse_argstring(self.thapl, line)`: one
field per declared `@argument` destination (lines 186-286).  `scale` is
kept as a string (its argparse `type` is `str`; the non-string default
`1` is a quirk not observable below). -/
structure Args where
  scale : String
  size : String
  format : String
  encoding : String
  preamble : String
  package : String
  library : String
  save : Option String
  imagemagick : String
  pictureoptions : String
  showlatex : Bool
  circuitikz : Bool
  tikzoptions : String
  code : List String

/-- The argument destinations declared by the `@argument` decorators on
`thapl` (lines 186-286).  There is no `python_path` destination, so the
attribute access `args.python_path` at line 305 raises
`AttributeError`. -/
def thaplArgDests : List String :=
  ["scale", "size", "format", "encoding", "preamble", "package", "library",
   "save", "imagemagick", "pictureoptions", "showlatex", "circuitikz",
   "tikzoptions", "code"]

/-- Line 297: `width, height = size.split(',')` - a comma-split of the
size option unpacked into two (string) components; `ValueError` unless
the split has exactly two parts.  No integer conversion happens here. -/
def sizeResolve (size : String) : Except PyErr (String × String) :=
  pyUnpack2 (pySplit size ',')

/-- The local variables of `thapl` as they stand at line 308, were the
binding at line 305 to succeed.  `python_path` has no corresponding
argument destination; it is included so the code region below line 305
can be modelled as a function of the state it reads. -/
structure ParsedVals where
  scale : String
  size : String
  width : String
  height : String
  plot_format : String
  encoding : String
  tikz_library : List String
  latex_package : List String
  imagemagick_path : String
  picture_options : String
  tikz_options : String
  python_path : String
  codeArgs : List String
  showlatex : Bool
  circuitikz : Bool
  preamble : String
  save : Option String

/-- The argument-reading phase of `thapl` (lines 294-305).  After the
size split succeeds, line 305 evaluates `args.python_path`; since
`python_path` is not among `thaplArgDests`, the lookup raises
`AttributeError` on every invocation, so the phase never returns
normally. -/
def parsePhase (args : Args) : Except PyErr ParsedVals :=
  let _scale := args.scale
  let size := args.size
  match sizeResolve size with
  | .error e => .error e
  | .ok _wh =>
    let _plot_format := args.format
    let _encoding := args.encoding
    let _tikz_library := pySplit args.library ','
    let _latex_package := pySplit args.package ','
    let _imagemagick_path := args.imagemagick
    let _picture_options := args.pictureoptions
    let _tikz_options := args.tikzoptions
    -- line 305: `python_path = args.python_path` - no such destination
    .error (.attributeError "python_path")

/- ----------------------------------------------------------------
Document assembly (src/thaplmagic.py lines 325-378).  The template
literals below are transcribed from the source: raw strings keep their
backslashes doubled where the source doubles them (the `documentclass`
line is written `r'\\documentclass{beamer}'` and therefore contains a
literal double backslash).
---------------------------------------------------------------- -/

def docclassFrag : String := "\\\\documentclass{beamer}"

def tikzPkgTmpl : String := "\\usepackage[%(tikz_options)s]{%(tikz_package)s}\n"

def bashfulFrag : String := "\\usepackage{bashful}\n"

def pkgTmpl : String := "\n\\usepackage{%s}\n            "

def libTmpl : String := "\n\\usetikzlibrary{%s}\n            "

def preambleTmpl : String := "\n%s\n            "

def begindocTmpl : String := "\n\\begin{document}\n        "

/-- The bashful shell-escape block (lines 366-372, a raw string): its
`%(python_path)` directive is followed by a space (a conversion flag)
and the letter `p` of `python3` - not a valid conversion character, so
`% locals()` raises `ValueError` here. -/
def bashTmpl : String :=
  "\n\\bash[stdoutFile=\\jobname.thapl.tex]\nPYTHONPATH=\"%(python_path) python3 -m thapl.main ./magic.thapl\n\\END\n\n\\include\x7b\\jobname.thapl\x7d\n        "

def enddocTmpl : String := "\n\\end{document}\n        "

/-- Format each element in order, stopping at the first error - the
shape of the `for pkg in latex_package:` / `for lib in tikz_library:`
append loops (lines 347-355). -/
def mapExcept {α β : Type} (f : α → Except PyErr β) : List α → Except PyErr (List β)
  | [] => .ok []
  | a :: as =>
    match f a with
    | .error e => .error e
    | .ok b =>
      match mapExcept f as with
      | .error e => .error e
      | .ok bs => .ok (b :: bs)

/-- The subset of `locals()` that the mapping-formatted templates can
reference. -/
def assembleMapping (tikz_options tikz_package python_path : String) :
    String → Option String :=
  fun k =>
    if k = "tikz_options" then some tikz_options
    else if k = "tikz_package" then some tikz_package
    else if k = "python_path" then some python_path
    else none

/-- Document assembly (lines 339-378): append the fixed fragments, the
tikz/circuitikz package import, one `\usepackage` line per requested
package, one `\usetikzlibrary` line per requested library, the preamble
(the `is not None` guard at line 357 is always true for the string
option), the document begin, the bashful block, and the document end;
then join.  Formatting the bashful block raises `ValueError`, so the
join is never reached. -/
def assemble (tikz_options tikz_package preamble python_path : String)
    (latex_package tikz_library : List String) : Except PyErr String :=
  let m := assembleMapping tikz_options tikz_package python_path
  match pyFormatMap tikzPkgTmpl m with
  | .error e => .error e
  | .ok tikzLine =>
    match mapExcept (fun p => pyFormat1 pkgTmpl p) latex_package with
    | .error e => .error e
    | .ok pkgs =>
      match mapExcept (fun l => pyFormat1 libTmpl l) tikz_library with
      | .error e => .error e
      | .ok libs =>
        match pyFormat1 preambleTmpl preamble with
        | .error e => .error e
        | .ok pre =>
          match pyFormatMap begindocTmpl m with
          | .error e => .error e
          | .ok bd =>
            match pyFormatMap bashTmpl m with
            | .error e => .error e
            | .ok bash =>
              match pyFormatMap enddocTmpl m with
              | .error e => .error e
              | .ok ed =>
                .ok (String.join
                  ([docclassFrag, tikzLine, bashfulFrag] ++ pkgs ++ libs ++ [pre, bd, bash, ed]))

/- ----------------------------------------------------------------
Publication and cleanup (src/thaplmagic.py lines 387-430).
---------------------------------------------------------------- -/

def thaplKey : String := "ThaplMagic.Thapl"

/-- Line 409: `width, height = [int(s) for s in size.split(',')]`;
`none` models the `ValueError` of a failed `int()` or of unpacking a
list whose length is not two. -/
def sizeInts (size : String) : Option (Int × Int) :=
  match (pySplit size ',').mapM pyInt with
  | some [a, b] => some (a, b)
  | _ => none

/-- The conditional conversion step (lines 397-400). -/
def convTrace (fmt imagemagick_path : String) (w : World) : Trace :=
  if fmt = "jpg" ∨ fmt = "jpeg" then convertPngToJpg imagemagick_path w
  else if fmt = "svg" then convertPdfToSvg w
  else Trace.empty

/-- Metadata attached in the publish loop (lines 423-430): svg payloads
are isolated, others carry none. -/
def pubMeta (fmt : String) : Option (List (String × String)) :=
  if fmt = "svg" then some [("isolated", "true")] else none

/-- Lines 387-430 of `thapl`: given the log returned by `_run_latex`,
either publish it as `text/plain` and return at once (lines 392-395,
skipping conversion, image lookup, save and `rmtree`), or convert,
read `tikz.<format>` (an unreadable image is absorbed as a diagnostic),
rewrite svg sizes, copy to the save destination (a failing copy of a
missing artifact raises and skips `rmtree`), remove the workspace, and
publish. -/
def publishPhase (plot_dir fmt size : String) (save : Option String)
    (imagemagick_path : String) (latex_log : Option String) (w : World) : Outcome :=
  if pyTruthyOptStr latex_log then
    { trace := { Trace.empty with
        published := [⟨thaplKey, "text/plain", .bytes (latex_log.getD ""), none⟩] },
      err := none }
  else
    let t0 := convTrace fmt imagemagick_path w
    let fname := plot_dir ++ "/tikz." ++ fmt
    match w.files fname with
    | none =>
      let t1 := { t0 with fileReads := t0.fileReads ++ [fname],
                          stderrLines := t0.stderrLines ++ ["No image generated."] }
      match save with
      | some _dst =>
        { trace := { t1 with fileReads := t1.fileReads ++ [fname] },
          err := some (.ioError "copy: no such file") }
      | none =>
        { trace := { t1 with rmtreeCalls := [plot_dir] }, err := none }
    | some content =>
      let t1 := { t0 with fileReads := t0.fileReads ++ [fname] }
      let mime := mimeFor fmt
      match sizeInts size with
      | none => { trace := t1, err := some (.valueError "invalid size for int conversion") }
      | some (wpx, hpx) =>
        let ddE : Except PyErr (List (String × String × FileData)) :=
          if fmt = "svg" then
            match content with
            | .svgDoc e =>
              match fixGnuplotSvgSize e (some (wpx, hpx)) with
              | .ok e2 => .ok [(thaplKey, mime, FileData.svgDoc e2)]
              | .error pe => .error pe
            | .bytes _ => .error .expatError
          else .ok [(thaplKey, mime, content)]
        match ddE with
        | .error pe => { trace := t1, err := some pe }
        | .ok dd =>
          match save with
          | some dst =>
            let t2 := { t1 with fileReads := t1.fileReads ++ [fname] }
            match w.files fname with
            | some d =>
              { trace := { t2 with
                  savedCopies := [(dst, d)],
                  rmtreeCalls := [plot_dir],
                  published := dd.map (fun p => ⟨p.1, p.2.1, p.2.2, pubMeta fmt⟩) },
                err := none }
            | none =>
              { trace := t2, err := some (.ioError "copy: no such file") }
          | none =>
            { trace := { t1 with
                rmtreeCalls := [plot_dir],
                published := dd.map (fun p => ⟨p.1, p.2.1, p.2.2, pubMeta fmt⟩) },
              err := none }

/-- Lines 385-430 given a written document: run the LaTeX engine, then
publish.  (Used to reason about the render/publish stages, which the
full `thapl` never reaches.) -/
def renderAndPublish (texCode encoding plot_dir fmt size : String)
    (save : Option String) (imagemagick_path : String) (w : World) : Outcome :=
  let lr := runLatex texCode encoding plot_dir w
  let po := publishPhase plot_dir fmt size save imagemagick_path lr.log w
  { trace := Trace.seq lr.trace po.trace, err := po.err }

/- ----------------------------------------------------------------
The body of `thapl` from line 308 on, and the full cell magic.
---------------------------------------------------------------- -/

/-- Lines 308-430 of `thapl`, as a function of the local state at line
308.  In the program this region is unreachable: the binding at line
305 always raises (see `parsePhase`).  The body creates the plot
directory (line 323, before the `--showlatex` check at line 380),
assembles the document (lines 339-378, which raises `ValueError` at the
bashful template), and would otherwise write the source, run LaTeX and
publish. -/
def thaplBody (pv : ParsedVals) (cell : Option String) (w : World) : Outcome :=
  let code0 := match cell with
               | none => ""
               | some c => c
  let code := String.join pv.codeArgs ++ code0
  let plot_dir := w.mkdtempPath
  let baseT := { Trace.empty with workspaceCreated := [plot_dir] }
  let _add_params :=
    if pv.plot_format = "png" ∨ pv.plot_format = "jpg" ∨ pv.plot_format = "jpeg"
    then "density=300," else ""
  let tikz_package := if pv.circuitikz then "circuitikz" else "tikz"
  match assemble pv.tikz_options tikz_package pv.preamble pv.python_path
          pv.latex_package pv.tikz_library with
  | .error e => { trace := baseT, err := some e }
  | .ok tex =>
    if pv.showlatex then
      -- line 381: print(code) writes to stdout, then return (no rmtree)
      { trace := { baseT with stdoutLines := [code] }, err := none }
    else
      let t1 := Trace.seq baseT
        { Trace.empty with filesWritten := [(plot_dir ++ "/magic.thapl", code)] }
      let lr := runLatex tex pv.encoding plot_dir w
      let po := publishPhase plot_dir pv.plot_format pv.size pv.save
                  pv.imagemagick_path lr.log w
      { trace := Trace.seq (Trace.seq t1 lr.trace) po.trace, err := po.err }

/-- The `thapl` cell magic (lines 288-430) after `parse_argstring`
succeeded: the argument-reading phase always raises before any side
effect, so the body is never entered. -/
def thapl (args : Args) (cell : Option String) (w : World) : Outcome :=
  match parsePhase args with
  | .error e => { trace := Trace.empty, err := some e }
  | .ok pv => thaplBody pv cell w

lemma strDataAppend (a b : String) : (a ++ b).data = a.data ++ b.data := by
  cases a; cases b; rfl

lemma strOfData {a b : String} (h : a.data = b.data) : a = b := by
  cases a; cases b; exact congrArg String.mk h

lemma strAppendAssoc (a b c : String) : (a ++ b) ++ c = a ++ (b ++ c) := by
  apply strOfData
  simp [strDataAppend]

lemma renderPos1F_litsOnly (arg : String) (b : Bool) (cs : List Char) :
    renderPos1F arg b (cs.map FmtItem.lit) = .ok (cs, b) := by
  induction cs with
  | nil => rfl
  | cons c cs ih => simp [renderPos1F, ih, Except.map]

lemma renderPos1F_one (arg : String) (pre post : List Char) :
    renderPos1F arg false (pre.map FmtItem.lit ++ FmtItem.posS :: post.map FmtItem.lit) =
      .ok (pre ++ (arg.data ++ post), true) := by
  induction pre with
  | nil => simp [renderPos1F, renderPos1F_litsOnly, Except.map]
  | cons c cs ih => simp [renderPos1F, ih, Except.map]

lemma renderMapF_litsOnly (m : String → Option String) (cs : List Char) :
    renderMapF m (cs.map FmtItem.lit) = .ok cs := by
  induction cs with
  | nil => rfl
  | cons c cs ih => simp [renderMapF, ih, Except.map]

lemma lex_pkgTmpl :
    lexFmt pkgTmpl =
      .ok ("\n\\usepackage\x7b".data.map FmtItem.lit ++
           FmtItem.posS :: "\x7d\n            ".data.map FmtItem.lit) := by
  rfl

lemma pyFormat1_pkgTmpl (p : String) :
    pyFormat1 pkgTmpl p = .ok ("\n\\usepackage\x7b" ++ p ++ "\x7d\n            ") := by
  unfold pyFormat1
  simp only [lex_pkgTmpl, renderPos1F_one]
  apply congrArg
  apply strOfData
  simp [strDataAppend]

lemma lex_libTmpl :
    lexFmt libTmpl =
      .ok ("\n\\usetikzlibrary\x7b".data.map FmtItem.lit ++
           FmtItem.posS :: "\x7d\n            ".data.map FmtItem.lit) := by
  rfl

lemma pyFormat1_libTmpl (p : String) :
    pyFormat1 libTmpl p = .ok ("\n\\usetikzlibrary\x7b" ++ p ++ "\x7d\n            ") := by
  unfold pyFormat1
  simp only [lex_libTmpl, renderPos1F_one]
  apply congrArg
  apply strOfData
  simp [strDataAppend]

lemma lex_preambleTmpl :
    lexFmt preambleTmpl =
      .ok ("\n".data.map FmtItem.lit ++
           FmtItem.posS :: "\n            ".data.map FmtItem.lit) := by
  rfl

lemma pyFormat1_preambleTmpl (p : String) :
    pyFormat1 preambleTmpl p = .ok ("\n" ++ p ++ "\n            ") := by
  unfold pyFormat1
  simp only [lex_preambleTmpl, renderPos1F_one]
  apply congrArg
  apply strOfData
  simp [strDataAppend]

lemma lex_tikzPkgTmpl :
    lexFmt tikzPkgTmpl =
      .ok ("\\usepackage[".data.map FmtItem.lit ++
           FmtItem.mapS "tikz_options" ::
             ("]\x7b".data.map FmtItem.lit ++
              FmtItem.mapS "tikz_package" :: "\x7d\n".data.map FmtItem.lit)) := by
  rfl

lemma renderMapF_lits (m : String → Option String) (cs : List Char) (items : List FmtItem) :
    renderMapF m (cs.map FmtItem.lit ++ items) =
      (renderMapF m items).map (fun r => cs ++ r) := by
  induction cs with
  | nil =>
    cases h : renderMapF m items <;> simp [h, Except.map]
  | cons c cs ih =>
    cases h : renderMapF m items <;> simp [renderMapF, ih, h, Except.map]

lemma pyFormatMap_tikzPkgTmpl (a b pp : String) :
    pyFormatMap tikzPkgTmpl (assembleMapping a b pp) =
      .ok ("\\usepackage[" ++ a ++ "]\x7b" ++ b ++ "\x7d\n") := by
  unfold pyFormatMap
  simp only [lex_tikzPkgTmpl, renderMapF_lits, renderMapF, assembleMapping,
             renderMapF_litsOnly]
  simp [Except.map]
  apply strOfData
  simp [strDataAppend]

lemma lex_begindocTmpl : lexFmt begindocTmpl = .ok (begindocTmpl.data.map FmtItem.lit) := by
  rfl

lemma lex_enddocTmpl : lexFmt enddocTmpl = .ok (enddocTmpl.data.map FmtItem.lit) := by
  rfl

lemma pyFormatMap_nodirective (t : String) (m : String → Option String)
    (h : lexFmt t = .ok (t.data.map FmtItem.lit)) :
    pyFormatMap t m = .ok t := by
  unfold pyFormatMap
  simp only [h, renderMapF_litsOnly, Except.map]

set_option maxRecDepth 4000 in
lemma lex_bashTmpl :
    lexFmt bashTmpl = .error (.valueError "unsupported format character p") := by
  rfl

lemma pyFormatMap_bashTmpl (m : String → Option String) :
    pyFormatMap bashTmpl m = .error (.valueError "unsupported format character p") := by
  unfold pyFormatMap
  rw [lex_bashTmpl]

lemma mapExcept_ok {α β : Type} (f : α → Except PyErr β) (g : α → β)
    (h : ∀ x, f x = .ok (g x)) : ∀ xs : List α, mapExcept f xs = .ok (xs.map g)
  | [] => rfl
  | a :: as => by simp [mapExcept, h a, mapExcept_ok f g h as]

lemma assemble_errors (a b pre pp : String) (pkgs libs : List String) :
    assemble a b pre pp pkgs libs = .error (.valueError "unsupported format character p") := by
  unfold assemble
  simp only [pyFormatMap_tikzPkgTmpl,
             mapExcept_ok (fun p => pyFormat1 pkgTmpl p) _ (fun p => pyFormat1_pkgTmpl p) pkgs,
             mapExcept_ok (fun l => pyFormat1 libTmpl l) _ (fun l => pyFormat1_libTmpl l) libs,
             pyFormat1_preambleTmpl,
             pyFormatMap_nodirective begindocTmpl _ lex_begindocTmpl,
             pyFormatMap_bashTmpl]

lemma thaplBody_run (pv : ParsedVals) (cell : Option String) (w : World) :
    thaplBody pv cell w =
      { trace := { Trace.empty with workspaceCreated := [w.mkdtempPath] },
        err := some (.valueError "unsupported format character p") } := by
  unfold thaplBody
  simp only [assemble_errors]

lemma thapl_run (args : Args) (cell : Option String) (w : World) :
    thapl args cell w =
      { trace := Trace.empty,
        err := some (match sizeResolve args.size with
                     | .error e => e
                     | .ok _ => .attributeError "python_path") } := by
  unfold thapl parsePhase
  cases h : sizeResolve args.size <;> simp [h]

lemma sizeResolve_pair (size a b : String) (h : pySplit size ',' = [a, b]) :
    sizeResolve size = .ok (a, b) := by
  unfold sizeResolve
  rw [h]
  rfl

lemma publishPhase_truthy_log (dir fmt size : String) (save : Option String)
    (imk s : String) (w : World) (h : s ≠ "") :
    publishPhase dir fmt size save imk (some s) w =
      { trace := { Trace.empty with
          published := [⟨thaplKey, "text/plain", .bytes s, none⟩] },
        err := none } := by
  unfold publishPhase
  simp [pyTruthyOptStr, h]

lemma tikzPngName (dir : String) : (dir ++ "/tikz.") ++ "png" = dir ++ "/tikz.png" := by
  rw [strAppendAssoc]
  rfl

lemma publishPhase_png_success (dir size imk : String) (w : World) (d : FileData)
    (a b : Int) (h1 : sizeInts size = some (a, b))
    (h2 : w.files (dir ++ "/tikz.png") = some d) :
    publishPhase dir "png" size none imk none w =
      { trace := { Trace.empty with
          fileReads := [dir ++ "/tikz.png"],
          rmtreeCalls := [dir],
          published := [⟨thaplKey, "image/png", d, none⟩] },
        err := none } := by
  unfold publishPhase
  simp only [pyTruthyOptStr, convTrace, tikzPngName, h1, h2]
  simp [Trace.empty, mimeFor, mimetypesTable, pubMeta]

lemma attrLookup_attrReplace_same (l : List (String × String)) (k v : String) :
    attrLookup (attrReplace l k v) k = if attrHas l k then some v else none := by
  induction l with
  | nil => simp [attrLookup, attrReplace, attrHas]
  | cons a l ih =>
    by_cases h : a.1 = k
    · simp [attrLookup, attrReplace, attrHas, h]
    · simp [attrLookup, attrReplace, attrHas, h, ih]

lemma attrLookup_append_right (l : List (String × String)) (k v : String)
    (h : attrHas l k = false) :
    attrLookup (l ++ [(k, v)]) k = some v := by
  induction l with
  | nil => simp [attrLookup]
  | cons a l ih =>
    simp only [attrHas, Bool.or_eq_false_iff] at h
    have h1 : ¬a.1 = k := by simpa using h.1
    simp [attrLookup, h1, ih h.2]

lemma svg_getAttr_setAttr_same (e : SvgElem) (k v : String) :
    (e.setAttr k v).getAttr k = v := by
  obtain ⟨l⟩ := e
  unfold SvgElem.setAttr SvgElem.getAttr
  by_cases h : attrHas l k
  · simp [h, attrLookup_attrReplace_same]
  · have h' : attrHas l k = false := by simpa using h
    simp [h', attrLookup_append_right l k v h']

lemma attrLookup_attrReplace_other (l : List (String × String)) (k k2 v : String)
    (h : k2 ≠ k) :
    attrLookup (attrReplace l k v) k2 = attrLookup l k2 := by
  induction l with
  | nil => simp [attrReplace]
  | cons a l ih =>
    by_cases ha : a.1 = k
    · have : ¬(k = k2) := fun hk => h hk.symm
      simp [attrReplace, attrLookup, ha, this, ih]
    · simp [attrReplace, attrLookup, ha, ih]

lemma attrLookup_append_other (l : List (String × String)) (k k2 v : String)
    (h : k2 ≠ k) :
    attrLookup (l ++ [(k, v)]) k2 = attrLookup l k2 := by
  induction l with
  | nil =>
    have : ¬(k = k2) := fun hk => h hk.symm
    simp [attrLookup, this]
  | cons a l ih =>
    by_cases ha : a.1 = k2 <;> simp [attrLookup, ha, ih]

lemma svg_getAttr_setAttr_other (e : SvgElem) (k k2 v : String) (h : k2 ≠ k) :
    (e.setAttr k v).getAttr k2 = e.getAttr k2 := by
  obtain ⟨l⟩ := e
  unfold SvgElem.setAttr SvgElem.getAttr
  by_cases hh : attrHas l k
  · simp [hh, attrLookup_attrReplace_other l k k2 v h]
  · have h' : attrHas l k = false := by simpa using hh
    simp [h', attrLookup_append_other l k k2 v h]

lemma fixSvg_explicit (e : SvgElem) (a b : Int) :
    ∃ e2, fixGnuplotSvgSize e (some (a, b)) = .ok e2 ∧
      e2.getAttr "width" = toString a ++ "px" ∧
      e2.getAttr "height" = toString b ++ "px" := by
  refine ⟨(e.setAttr "width" (toString a ++ "px")).setAttr "height" (toString b ++ "px"),
          ?_, ?_, ?_⟩
  · unfold fixGnuplotSvgSize pyFormatDpx
    rfl
  · rw [svg_getAttr_setAttr_other _ _ _ _ (by decide)]
    exact svg_getAttr_setAttr_same _ _ _
  · exact svg_getAttr_setAttr_same _ _ _

lemma convTrace_rmtree (fmt imk : String) (w : World) :
    (convTrace fmt imk w).rmtreeCalls = [] := by
  unfold convTrace convertPngToJpg convertPdfToSvg
  split
  · rfl
  · split <;> rfl

lemma publishPhase_missing_nosave (dir fmt size imk : String) (w : World)
    (hfile : w.files (dir ++ "/tikz." ++ fmt) = none) :
    (publishPhase dir fmt size none imk none w).err = none ∧
    (publishPhase dir fmt size none imk none w).trace.rmtreeCalls = [dir] := by
  unfold publishPhase
  simp [pyTruthyOptStr, hfile]

lemma publishPhase_missing_save (dir fmt size imk dst : String) (w : World)
    (hfile : w.files (dir ++ "/tikz." ++ fmt) = none) :
    (publishPhase dir fmt size (some dst) imk none w).err =
      some (.ioError "copy: no such file") ∧
    (publishPhase dir fmt size (some dst) imk none w).trace.rmtreeCalls = [] := by
  unfold publishPhase
  simp [pyTruthyOptStr, hfile, convTrace_rmtree]

lemma runLatex_log_none (tex enc dir : String) (w : World)
    (h1 : latexRetFail w = true) (h2 : w.thaplLogContents = none) :
    (runLatex tex enc dir w).log = none ∧
    "No log file generated." ∈ (runLatex tex enc dir w).trace.stderrLines := by
  constructor
  · show latexLogResult w = none
    unfold latexLogResult
    rw [h1, h2]
    rfl
  · show "No log file generated." ∈
      (Trace.seq _ (latexLogTrace w)).stderrLines
    unfold Trace.seq latexLogTrace
    rw [h1, h2]
    simp

lemma runLatex_log_some (tex enc dir : String) (w : World) (s : String)
    (h1 : latexRetFail w = true) (h2 : w.thaplLogContents = some s) :
    (runLatex tex enc dir w).log = some s := by
  show latexLogResult w = some s
  unfold latexLogResult
  rw [h1, h2]
  rfl

lemma sizeResolve_not_two (size : String) (h : (pySplit size ',').length ≠ 2) :
    sizeResolve size =
      .error (.valueError ("cannot unpack list of length " ++
        toString (pySplit size ',').length)) := by
  unfold sizeResolve pyUnpack2
  cases hl : pySplit size ',' with
  | nil => rfl
  | cons a t =>
    cases t with
    | nil => rfl
    | cons b t2 =>
      cases t2 with
      | nil => rw [hl] at h; simp at h
      | cons c t3 => rfl

-- Fixtures for witnesses and counterexamples.

/-- A parsed-argument record holding exactly the documented defaults
(scale=1, size "400,240", png, utf-8, empty package/library/preamble,
convert, no save, flags off). -/
def argsDefault : Args :=
  { scale := "1", size := "400,240", format := "png", encoding := "utf-8",
    preamble := "", package := "", library := "", save := none,
    imagemagick := "convert", pictureoptions := "", showlatex := false,
    circuitikz := false, tikzoptions := "", code := [] }

/-- A benign world: empty environment, successful subprocesses, no
readable files. -/
def worldBase : World :=
  { cwd := "/nb", environ := fun _ => none, mkdtempPath := "/tmp/plot",
    latexRetcode := some 0, thaplLogContents := none,
    pdf2svgRet := some 0, convertRet := some 0, files := fun _ => none }

/-- The local state at line 308 under default arguments. -/
def pvDefault : ParsedVals :=
  { scale := "1", size := "400,240", width := "400", height := "240",
    plot_format := "png", encoding := "utf-8", tikz_library := [""],
    latex_package := [""], imagemagick_path := "convert",
    picture_options := "", tikz_options := "", python_path := "",
    codeArgs := [], showlatex := false, circuitikz := false,
    preamble := "", save := none }

lemma sizeResolve_never_argerr (size m : String) :
    sizeResolve size ≠ .error (.argumentError m) := by
  unfold sizeResolve pyUnpack2
  cases hl : pySplit size ',' with
  | nil => simp
  | cons a t =>
    cases t with
    | nil => simp
    | cons b t2 =>
      cases t2 with
      | nil => simp
      | cons c t3 => simp

lemma thapl_err_from_sizeResolve (args : Args) (cell : Option String) (w : World) :
    (thapl args cell w).err =
      some (match sizeResolve args.size with
            | .error e => e
            | .ok _ => .attributeError "python_path") := by
  rw [thapl_run]

/- ----------------------------------------------------------------
Claim theorems.
---------------------------------------------------------------- -/

/-- C3: every invocation of the thapl cell magic reads the attribute
python_path from the parsed-argument record, but no such option is
declared in the argument schema, so for every input the attribute
access fails immediately after argument parsing, before any Workspace
is created, any document is assembled, or any subprocess runs (the
effect trace of the whole invocation is empty). -/
theorem C3_python_path_attribute_error :
    ("python_path" ∉ thaplArgDests) ∧
    ∀ (args : Args) (cell : Option String) (w : World),
      (thapl args cell w).trace = Trace.empty ∧
      (thapl args cell w).err.isSome = true ∧
      (∀ a b : String, pySplit args.size ',' = [a, b] →
        (thapl args cell w).err = some (.attributeError "python_path")) := by
  refine ⟨by decide, fun args cell w => ⟨?_, ?_, ?_⟩⟩
  · rw [thapl_run]
  · rw [thapl_run]
    rfl
  · intro a b h
    rw [thapl_err_from_sizeResolve, sizeResolve_pair args.size a b h]

/-- C3 witness: at the documented defaults the invocation leaves no
trace and raises AttributeError for python_path. -/
theorem C3_python_path_witness :
    pySplit argsDefault.size ',' = ["400", "240"] ∧
    (thapl argsDefault none worldBase).trace = Trace.empty ∧
    (thapl argsDefault none worldBase).err = some (.attributeError "python_path") :=
  ⟨by decide, (C3_python_path_attribute_error.2 argsDefault none worldBase).1,
   (C3_python_path_attribute_error.2 argsDefault none worldBase).2.2 "400" "240" (by decide)⟩

/-- C1 counterexample: an invocation of the pipeline body creates the
Workspace and returns with it still in existence (rmtree is never
reached), refuting removal on every control path. -/
theorem C1_cleanup_counterexample :
    (thaplBody pvDefault (some "animation") worldBase).trace.workspaceCreated =
      ["/tmp/plot"] ∧
    (thaplBody pvDefault (some "animation") worldBase).trace.rmtreeCalls = [] := by
  rw [thaplBody_run]
  exact ⟨rfl, rfl⟩

/-- C1 amended: no run of the body removes its Workspace - document
assembly fails before LaTeX ever runs, leaving the directory behind;
moreover, in the publication phase, the LaTeX-failure branch returns
before the removal call, and only paths that get past the early return
(for example a successful png publication) remove the directory. -/
theorem C1_cleanup_amended :
    (∀ (pv : ParsedVals) (cell : Option String) (w : World),
      (thaplBody pv cell w).trace.workspaceCreated = [w.mkdtempPath] ∧
      (thaplBody pv cell w).trace.rmtreeCalls = []) ∧
    (∀ (dir fmt size : String) (save : Option String) (imk s : String) (w : World),
      s ≠ "" →
      (publishPhase dir fmt size save imk (some s) w).trace.rmtreeCalls = []) ∧
    (∀ (dir size imk : String) (w : World) (d : FileData) (a b : Int),
      sizeInts size = some (a, b) →
      w.files (dir ++ "/tikz.png") = some d →
      (publishPhase dir "png" size none imk none w).trace.rmtreeCalls = [dir]) := by
  refine ⟨fun pv cell w => ?_, fun dir fmt size save imk s w h => ?_,
          fun dir size imk w d a b h1 h2 => ?_⟩
  · rw [thaplBody_run]
    exact ⟨rfl, rfl⟩
  · rw [publishPhase_truthy_log dir fmt size save imk s w h]
    rfl
  · rw [publishPhase_png_success dir size imk w d a b h1 h2]

/-- C1 witness: the three branches of the amended statement at concrete
inputs. -/
theorem C1_cleanup_witness :
    (thaplBody pvDefault none worldBase).trace.rmtreeCalls = [] ∧
    (publishPhase "/tmp/plot" "png" "400,240" none "convert" (some "boom")
      worldBase).trace.rmtreeCalls = [] ∧
    (publishPhase "/tmp/plot" "png" "400,240" none "convert" none
      { worldBase with
        files := fun f => if f = "/tmp/plot/tikz.png" then some (.bytes "P") else none
      }).trace.rmtreeCalls = ["/tmp/plot"] :=
  ⟨(C1_cleanup_amended.1 pvDefault none worldBase).2,
   C1_cleanup_amended.2.1 "/tmp/plot" "png" "400,240" none "convert" "boom" worldBase
     (by decide),
   C1_cleanup_amended.2.2 "/tmp/plot" "400,240" "convert" _ (.bytes "P") 400 240
     (by decide) (by decide)⟩

/-- C2 counterexample: an ordinary invocation (default arguments) makes
an exception - the AttributeError for python_path - propagate out of
the cell-magic entry point, refuting "no exception propagates". -/
theorem C2_escape_counterexample :
    (thapl argsDefault (some "animation") worldBase).err =
      some (.attributeError "python_path") := by
  rw [thapl_err_from_sizeResolve]
  rfl

/-- C2 amended: the enumerated failure kinds are absorbed where their
handlers sit - a render failure with a readable non-empty log, and a
missing artifact without a save destination (covering conversion
failures, whose only effect is a missing artifact), both return without
an escaping exception - but (i) every invocation that passes the size
split raises AttributeError at the undeclared python_path attribute,
and (ii) a missing artifact together with a save destination raises
IOError from the copy call. -/
theorem C2_absorption_amended :
    (∀ (args : Args) (cell : Option String) (w : World) (a b : String),
      pySplit args.size ',' = [a, b] →
      (thapl args cell w).err = some (.attributeError "python_path")) ∧
    (∀ (tex enc dir fmt size : String) (save : Option String) (imk s : String) (w : World),
      latexRetFail w = true → w.thaplLogContents = some s → s ≠ "" →
      (renderAndPublish tex enc dir fmt size save imk w).err = none) ∧
    (∀ (tex enc dir fmt size imk : String) (w : World),
      latexRetFail w = false →
      w.files (dir ++ "/tikz." ++ fmt) = none →
      (renderAndPublish tex enc dir fmt size none imk w).err = none) ∧
    (∀ (tex enc dir fmt size imk dst : String) (w : World),
      latexRetFail w = false →
      w.files (dir ++ "/tikz." ++ fmt) = none →
      (renderAndPublish tex enc dir fmt size (some dst) imk w).err =
        some (.ioError "copy: no such file")) := by
  refine ⟨fun args cell w a b h => ?_, fun tex enc dir fmt size save imk s w h1 h2 h3 => ?_,
          fun tex enc dir fmt size imk w h1 h2 => ?_,
          fun tex enc dir fmt size imk dst w h1 h2 => ?_⟩
  · rw [thapl_err_from_sizeResolve, sizeResolve_pair args.size a b h]
  · show (publishPhase dir fmt size save imk (runLatex tex enc dir w).log w).err = none
    rw [runLatex_log_some tex enc dir w s h1 h2,
        publishPhase_truthy_log dir fmt size save imk s w h3]
  · show (publishPhase dir fmt size none imk (runLatex tex enc dir w).log w).err = none
    have hl : (runLatex tex enc dir w).log = none := by
      show latexLogResult w = none
      unfold latexLogResult
      rw [h1]
      rfl
    rw [hl]
    exact (publishPhase_missing_nosave dir fmt size imk w h2).1
  · show (publishPhase dir fmt size (some dst) imk (runLatex tex enc dir w).log w).err =
      some (.ioError "copy: no such file")
    have hl : (runLatex tex enc dir w).log = none := by
      show latexLogResult w = none
      unfold latexLogResult
      rw [h1]
      rfl
    rw [hl]
    exact (publishPhase_missing_save dir fmt size imk dst w h2).1

/-- C2 witness: the four branches of the amended statement at concrete
inputs. -/
theorem C2_absorption_witness :
    (thapl argsDefault none worldBase).err = some (.attributeError "python_path") ∧
    (renderAndPublish "doc" "utf-8" "/tmp/plot" "png" "400,240" none "convert"
      { worldBase with latexRetcode := some 1, thaplLogContents := some "boom" }).err =
        none ∧
    (renderAndPublish "doc" "utf-8" "/tmp/plot" "jpg" "400,240" none "convert"
      { worldBase with convertRet := some 1 }).err = none ∧
    (renderAndPublish "doc" "utf-8" "/tmp/plot" "png" "400,240" (some "/tmp/out.png")
      "convert" worldBase).err = some (.ioError "copy: no such file") :=
  ⟨C2_absorption_amended.1 argsDefault none worldBase "400" "240" (by decide),
   C2_absorption_amended.2.1 "doc" "utf-8" "/tmp/plot" "png" "400,240" none "convert"
     "boom" _ (by decide) rfl (by decide),
   C2_absorption_amended.2.2.1 "doc" "utf-8" "/tmp/plot" "jpg" "400,240" "convert" _
     (by decide) rfl,
   C2_absorption_amended.2.2.2 "doc" "utf-8" "/tmp/plot" "png" "400,240" "convert"
     "/tmp/out.png" _ (by decide) rfl⟩

/-- The world of the C4 counterexample: the LaTeX engine exits with
code 1 and `thapl.log` is unreadable; no artifact exists. -/
def worldUnreadableLog : World :=
  { worldBase with latexRetcode := some 1, thaplLogContents := none }

/-- C4 counterexample: LaTeX fails and the log is unreadable - no empty
log is substituted and nothing is published as text/plain; instead the
pipeline proceeds as if the render had succeeded: the conversion
subprocess runs and the image lookup is attempted, refuting the claim. -/
theorem C4_unreadable_log_counterexample :
    (renderAndPublish "doc" "utf-8" "/tmp/plot" "svg" "400,240" none "convert"
        worldUnreadableLog).trace.published = [] ∧
    (renderAndPublish "doc" "utf-8" "/tmp/plot" "svg" "400,240" none "convert"
        worldUnreadableLog).trace.subprocessCalls =
      ["xelatex --shell-escape magic.tex", "pdf2svg magic.pdf magic.svg"] ∧
    (renderAndPublish "doc" "utf-8" "/tmp/plot" "svg" "400,240" none "convert"
        worldUnreadableLog).trace.fileReads = ["thapl.log", "/tmp/plot/tikz.svg"] ∧
    "No log file generated." ∈
      (renderAndPublish "doc" "utf-8" "/tmp/plot" "svg" "400,240" none "convert"
        worldUnreadableLog).trace.stderrLines := by
  refine ⟨rfl, rfl, rfl, ?_⟩
  decide

/-- C4 amended: if LaTeX fails and the log file is readable with
non-empty contents, the log is published as a text/plain payload and
nothing else happens in the publication phase (no conversion
subprocess, no file read, no image publication, and also no rmtree);
if the log is unreadable, no empty string is substituted - the log
stays None, a diagnostic is printed, and the falsy log sends the
pipeline down the success path. -/
theorem C4_latex_failure_amended :
    (∀ (dir fmt size : String) (save : Option String) (imk s : String) (w : World),
      s ≠ "" →
      publishPhase dir fmt size save imk (some s) w =
        { trace := { Trace.empty with
            published := [⟨thaplKey, "text/plain", .bytes s, none⟩] },
          err := none }) ∧
    (∀ (tex enc dir : String) (w : World),
      latexRetFail w = true → w.thaplLogContents = none →
      (runLatex tex enc dir w).log = none ∧
      "No log file generated." ∈ (runLatex tex enc dir w).trace.stderrLines) := by
  exact ⟨publishPhase_truthy_log, runLatex_log_none⟩

/-- C4 witness: both branches of the amended statement at concrete
inputs. -/
theorem C4_latex_failure_witness :
    (publishPhase "/tmp/plot" "png" "400,240" none "convert" (some "boom") worldBase =
      { trace := { Trace.empty with
          published := [⟨thaplKey, "text/plain", .bytes "boom", none⟩] },
        err := none }) ∧
    (runLatex "doc" "utf-8" "/tmp/plot" worldUnreadableLog).log = none :=
  ⟨C4_latex_failure_amended.1 "/tmp/plot" "png" "400,240" none "convert" "boom" worldBase
     (by decide),
   (C4_latex_failure_amended.2 "doc" "utf-8" "/tmp/plot" worldUnreadableLog
     (by decide) rfl).1⟩

/-- The parsed-argument record of the C5 counterexample: a well-formed
but non-numeric size pair. -/
def argsNonNumericSize : Args := { argsDefault with size := "a,b" }

/-- C5 counterexample: with size "a,b" the size resolution at line 297
succeeds (it binds the two substrings - no integer conversion and no
ArgumentError happens there), and the invocation then fails with
AttributeError, not ArgumentError. -/
theorem C5_nonnumeric_counterexample :
    sizeResolve "a,b" = .ok ("a", "b") ∧
    (thapl argsNonNumericSize none worldBase).err =
      some (.attributeError "python_path") := by
  refine ⟨by rfl, ?_⟩
  rw [thapl_err_from_sizeResolve]
  rfl

/-- C5 amended: argument resolution splits the size option on commas
into two strings (numeric conversion is deferred to the publication
phase), raising ValueError - not ArgumentError - before any Workspace
is created when the count differs from two; non-numeric two-part pairs
pass resolution, and no invocation fails with ArgumentError. -/
theorem C5_size_resolution_amended :
    (∀ size a b : String, pySplit size ',' = [a, b] → sizeResolve size = .ok (a, b)) ∧
    (∀ size : String, (pySplit size ',').length ≠ 2 →
      sizeResolve size =
        .error (.valueError ("cannot unpack list of length " ++
          toString (pySplit size ',').length))) ∧
    (∀ (args : Args) (cell : Option String) (w : World),
      (thapl args cell w).trace = Trace.empty ∧
      ∀ m : String, (thapl args cell w).err ≠ some (.argumentError m)) := by
  refine ⟨sizeResolve_pair, sizeResolve_not_two, fun args cell w => ⟨?_, fun m => ?_⟩⟩
  · rw [thapl_run]
  · rw [thapl_err_from_sizeResolve]
    intro hc
    cases hs : sizeResolve args.size with
    | ok v =>
      rw [hs] at hc
      simp at hc
    | error e =>
      rw [hs] at hc
      simp at hc
      exact sizeResolve_never_argerr args.size m (hc ▸ hs)

/-- C5 witness: the branches of the amended statement at concrete
inputs. -/
theorem C5_size_resolution_witness :
    sizeResolve "320,200" = .ok ("320", "200") ∧
    sizeResolve "400" =
      .error (.valueError ("cannot unpack list of length " ++ toString 1)) ∧
    (thapl argsDefault none worldBase).err ≠ some (.argumentError "bad size") := by
  refine ⟨C5_size_resolution_amended.1 "320,200" "320" "200" (by decide), ?_, ?_⟩
  · have h := C5_size_resolution_amended.2.1 "400" (by decide)
    simpa using h
  · exact (C5_size_resolution_amended.2.2 argsDefault none worldBase).2 "bad size"

/-- The local state of the C6 counterexample: `--showlatex` set. -/
def pvShowLatex : ParsedVals := { pvDefault with showlatex := true }

/-- C6 counterexample: with --showlatex a Workspace IS created (mkdtemp
at line 323 precedes the flag check at line 380), nothing is emitted on
either stream, and the invocation does not terminate successfully,
refuting the claim. -/
theorem C6_showlatex_counterexample :
    (thaplBody pvShowLatex (some "src") worldBase).trace.workspaceCreated =
      ["/tmp/plot"] ∧
    (thaplBody pvShowLatex (some "src") worldBase).trace.stdoutLines = [] ∧
    (thaplBody pvShowLatex (some "src") worldBase).trace.stderrLines = [] ∧
    (thaplBody pvShowLatex (some "src") worldBase).err.isSome = true := by
  rw [thaplBody_run]
  exact ⟨rfl, rfl, rfl, rfl⟩

/-- C6 amended: with --showlatex the body creates the temporary plot
directory and attempts document assembly before the flag is consulted;
assembly fails, so the raw source is never emitted (on the code's
intended path the print at line 381 targets stdout, not the diagnostic
stream), no subprocess is invoked, nothing is published, and the
invocation ends with an escaping exception rather than successfully. -/
theorem C6_showlatex_amended :
    ∀ (pv : ParsedVals) (cell : Option String) (w : World),
      pv.showlatex = true →
      (thaplBody pv cell w).trace.workspaceCreated = [w.mkdtempPath] ∧
      (thaplBody pv cell w).trace.subprocessCalls = [] ∧
      (thaplBody pv cell w).trace.stdoutLines = [] ∧
      (thaplBody pv cell w).trace.stderrLines = [] ∧
      (thaplBody pv cell w).trace.published = [] ∧
      (thaplBody pv cell w).err.isSome = true := by
  intro pv cell w _h
  rw [thaplBody_run]
  exact ⟨rfl, rfl, rfl, rfl, rfl, rfl⟩

/-- C6 witness: the amended statement at a concrete --showlatex
invocation. -/
theorem C6_showlatex_witness :
    pvShowLatex.showlatex = true ∧
    (thaplBody pvShowLatex none worldBase).trace.subprocessCalls = [] ∧
    (thaplBody pvShowLatex none worldBase).trace.stdoutLines = [] :=
  ⟨rfl, (C6_showlatex_amended pvShowLatex none worldBase rfl).2.1,
   (C6_showlatex_amended pvShowLatex none worldBase rfl).2.2.1⟩

/-- The failing input of C7: a root element carrying only a viewBox. -/
def svgViewBoxOnly : SvgElem := ⟨[("viewBox", "0 0 100 50")]⟩

/-- C7: with an explicit size the rewriting sets width/height to
exactly the decimal rendering of the pair with the px suffix (for any
element, overriding whatever viewBox holds); but on the fallback path
(no explicit size) the code does not produce viewBox-derived
dimensions - it raises TypeError, because the viewBox entries are
strings handed to the %d conversion.  This contradicts the function's
own docstring ("Set these to be the same as the viewBox"). -/
theorem C7_svg_size_eval :
    (∀ (e : SvgElem) (a b : Int),
      ∃ e2, fixGnuplotSvgSize e (some (a, b)) = .ok e2 ∧
        e2.getAttr "width" = toString a ++ "px" ∧
        e2.getAttr "height" = toString b ++ "px") ∧
    (∃ e2, fixGnuplotSvgSize svgViewBoxOnly (some (320, 200)) = .ok e2 ∧
      e2.getAttr "width" = "320px" ∧ e2.getAttr "height" = "200px") ∧
    fixGnuplotSvgSize svgViewBoxOnly none =
      .error (.typeError "%d format: a real number is required, not str") := by
  refine ⟨fixSvg_explicit, ?_, by rfl⟩
  obtain ⟨e2, h1, h2, h3⟩ := fixSvg_explicit svgViewBoxOnly 320 200
  exact ⟨e2, h1, h2, h3⟩

/-- C8: the package loop turns the comma-split package string into
exactly one \usepackage fragment per entry, in input order - for
"pgfplots,textcomp" the two distinct fragments in that order - but
document assembly then always aborts with ValueError while formatting
the bashful template (the `%(python_path)` directive is followed by an
invalid conversion character), so no assembled document ever exists. -/
theorem C8_usepackage_eval :
    (∀ pkgs : List String,
      mapExcept (fun p => pyFormat1 pkgTmpl p) pkgs =
        .ok (pkgs.map (fun p => "\n\\usepackage\x7b" ++ p ++ "\x7d\n            "))) ∧
    pySplit "pgfplots,textcomp" ',' = ["pgfplots", "textcomp"] ∧
    mapExcept (fun p => pyFormat1 pkgTmpl p) (pySplit "pgfplots,textcomp" ',') =
      .ok ["\n\\usepackage\x7bpgfplots\x7d\n            ",
           "\n\\usepackage\x7btextcomp\x7d\n            "] ∧
    (∀ (tikz_options tikz_package preamble python_path : String)
       (latex_package tikz_library : List String),
      assemble tikz_options tikz_package preamble python_path latex_package
          tikz_library =
        .error (.valueError "unsupported format character p")) := by
  refine ⟨mapExcept_ok _ _ pyFormat1_pkgTmpl, by decide, ?_, assemble_errors⟩
  rw [mapExcept_ok _ _ pyFormat1_pkgTmpl]
  rfl

/-- C9: the LaTeX subprocess receives an environment whose TEXINPUTS
entry is the caller's working directory prepended (with a path
separator) to the pre-existing TEXINPUTS when one exists, and otherwise
"." plus a separator, the caller's working directory, and a doubled
trailing separator; every other variable is exactly the parent
environment's value (the parent environment itself, being an input,
is untouched). -/
theorem C9_texinputs_env :
    ∀ (texCode enc dir : String) (w : World),
      ((runLatex texCode enc dir w).latexEnv "TEXINPUTS" =
        some (match w.environ "TEXINPUTS" with
              | some v => w.cwd ++ pathSep ++ v
              | none => "." ++ pathSep ++ w.cwd ++ pathSep ++ pathSep)) ∧
      (∀ k : String, k ≠ "TEXINPUTS" →
        (runLatex texCode enc dir w).latexEnv k = w.environ k) := by
  intro texCode enc dir w
  constructor
  · show mkLatexEnv w.environ w.cwd "TEXINPUTS" = _
    unfold mkLatexEnv
    simp only [if_pos rfl]
    cases w.environ "TEXINPUTS" <;> rfl
  · intro k hk
    show mkLatexEnv w.environ w.cwd k = _
    unfold mkLatexEnv
    simp [hk]

/-- A world with a pre-existing TEXINPUTS and one unrelated variable. -/
def worldTexinputs : World :=
  { worldBase with
      environ := fun k =>
        if k = "TEXINPUTS" then some "/texmf" else
        if k = "HOME" then some "/root" else none }

/-- C9 witness: at a concrete environment, TEXINPUTS is the prepended
path and an unrelated variable is passed through unchanged. -/
theorem C9_texinputs_witness :
    ("HOME" : String) ≠ "TEXINPUTS" ∧
    (runLatex "doc" "utf-8" "/tmp/plot" worldTexinputs).latexEnv "HOME" =
      worldTexinputs.environ "HOME" ∧
    (runLatex "doc" "utf-8" "/tmp/plot" worldTexinputs).latexEnv "TEXINPUTS" =
      some ("/nb" ++ pathSep ++ "/texmf") :=
  ⟨by decide,
   (C9_texinputs_env "doc" "utf-8" "/tmp/plot" worldTexinputs).2 "HOME" (by decide),
   (C9_texinputs_env "doc" "utf-8" "/tmp/plot" worldTexinputs).1⟩

/-- The local state of the C10 failing input: a save destination under
the default png format. -/
def pvSaveDest : ParsedVals := { pvDefault with save := some "/tmp/out.png" }

/-- The world of the C10 publication-phase conjunct: a successful
render whose tikz.png exists. -/
def worldSavedPng : World :=
  { worldBase with
      files := fun f => if f = "/tmp/plot/tikz.png" then some (.bytes "PNGDATA") else none }

/-- C10: the copy logic itself is right - in the publication phase a
successful png render with a save destination copies exactly the bytes
of the Workspace's tikz.png to the save path before the Workspace is
removed - but the pipeline can never exhibit the claim: every run of
the body fails during document assembly (after the python_path
AttributeError is already fatal at line 305), before any LaTeX run, so
no successful render occurs and nothing is ever copied. -/
theorem C10_save_eval :
    ((thaplBody pvSaveDest none worldBase).err.isSome = true ∧
     (thaplBody pvSaveDest none worldBase).trace.savedCopies = [] ∧
     (thaplBody pvSaveDest none worldBase).trace.subprocessCalls = []) ∧
    ((renderAndPublish "doc" "utf-8" "/tmp/plot" "png" "400,240" (some "/tmp/out.png")
        "convert" worldSavedPng).trace.savedCopies =
      [("/tmp/out.png", .bytes "PNGDATA")] ∧
     worldSavedPng.files "/tmp/plot/tikz.png" = some (.bytes "PNGDATA") ∧
     (renderAndPublish "doc" "utf-8" "/tmp/plot" "png" "400,240" (some "/tmp/out.png")
        "convert" worldSavedPng).trace.rmtreeCalls = ["/tmp/plot"] ∧
     (renderAndPublish "doc" "utf-8" "/tmp/plot" "png" "400,240" (some "/tmp/out.png")
        "convert" worldSavedPng).err = none) := by
  refine ⟨?_, by rfl, by rfl, by rfl, by rfl⟩
  rw [thaplBody_run]
  exact ⟨rfl, rfl, rfl⟩
